import Mathlib

/-!
Shallow embedding of the CounterUAS MapWidget (src/ui/MapWidget.h and
src/ui/MapWidget.cpp): the geographic/screen projection, the zoom/range
conversion, panning, the track registry, and the defended-area ring
geometry. Real-number arithmetic models the C++ double arithmetic
exactly, with no rounding. Widget width and height are passed as
explicit parameters; signal emissions are modelled as an explicit list
returned next to the updated state.
-/

namespace CounterUAS

/-- Geographic position: latitude and longitude in degrees, altitude in meters. -/
structure GeoPosition where
  latitude : ℝ
  longitude : ℝ
  altitude : ℝ

/-- Track classification, as matched by MapWidget::colorForClassification. -/
inductive TrackClassification where
  | Hostile
  | Friendly
  | Pending
  | Neutral
  | Unknown
deriving DecidableEq

/-- Track lifecycle state; drawTracks skips tracks in the Dropped state. -/
inductive TrackState where
  | Active
  | Dropped
deriving DecidableEq, BEq

/-- The read-only track handle consumed by MapWidget: position, velocity
given as heading and speed, classification, lifecycle state, identifier. -/
structure Track where
  position : GeoPosition
  heading : ℝ
  speed : ℝ
  classification : TrackClassification
  state : TrackState
  trackId : String

/-- The signals MapWidget can emit, from the header signal block. -/
inductive Signal where
  | trackSelected (trackId : String)
  | mapClicked (pos : GeoPosition)
  | zoomChanged (zoom : ℝ)
  | centerChanged (pos : GeoPosition)

/-- The empty QString, the cleared value of the selected track id. -/
def emptyId : String := ""

namespace CoordinateUtils

/-- Modelled from the spec: the repository file utils/CoordinateUtils.h is not
under src/, only its callers are. Spec section 4.1: meters per degree of
latitude, a constant of about 111320 m, the standard spherical approximation. -/
noncomputable def DEG_TO_M_LAT : ℝ := 111320

/-- Modelled from the spec: meters per degree of longitude at a given latitude,
DEG_TO_M_LAT times the cosine of the latitude in radians (spec section 4.1),
with the cosine term clamped away from zero near the poles (spec section 7) so
that the factor never reaches zero and never inverts sign. -/
noncomputable def degToMeterLon (lat : ℝ) : ℝ :=
  DEG_TO_M_LAT * max (Real.cos (lat * Real.pi / 180)) (1 / 1000000)

/-- Modelled from the spec: planar offset in meters east/north of the origin,
computed independently per axis using the respective meters-per-degree factor
evaluated at the origin latitude (spec section 4.1). -/
noncomputable def geoToLocal (pos origin : GeoPosition) : ℝ × ℝ :=
  ((pos.longitude - origin.longitude) * degToMeterLon origin.latitude,
   (pos.latitude - origin.latitude) * DEG_TO_M_LAT)

/-- Modelled from the spec: exact inverse of geoToLocal for the same origin
(spec section 4.1). The altitude of the produced position is left at zero,
which is irrelevant to the angular round-trip contract. -/
noncomputable def localToGeo (offset : ℝ × ℝ) (origin : GeoPosition) : GeoPosition :=
  { latitude := origin.latitude + offset.2 / DEG_TO_M_LAT
    longitude := origin.longitude + offset.1 / degToMeterLon origin.latitude
    altitude := 0 }

end CoordinateUtils

/-- Qt qBound(lo, v, hi): v clamped to the closed interval from lo to hi. -/
noncomputable def qBound (lo v hi : ℝ) : ℝ := max lo (min v hi)

/-- The mutable state of MapWidget: center, zoom, derived view range in
meters, selected track id, and the track registry (the QHash is modelled as
an association list from track id to track handle). -/
structure MapState where
  m_center : GeoPosition
  m_zoom : ℝ
  m_viewRangeM : ℝ
  m_selectedTrackId : String
  m_tracks : List (String × Track)

/-- MapWidget::zoomToRangeScale: rangeScale = 50000 / 2 ^ ((zoom - 1) / 2.5),
clamped by qBound to the interval from 100 to 50000 meters. -/
noncomputable def zoomToRangeScale (zoom : ℝ) : ℝ :=
  qBound 100 (50000 / (2 : ℝ) ^ ((zoom - 1) / 2.5)) 50000

/-- MapWidget::rangeScaleToZoom: zoom = 1 + log2(50000 / rangeM) * 2.5,
clamped by qBound to the interval from 1 to 20. -/
noncomputable def rangeScaleToZoom (rangeM : ℝ) : ℝ :=
  qBound 1 (1 + Real.logb 2 (50000 / rangeM) * 2.5) 20

/-- MapWidget::MapWidget: default center (34.0522, -118.2437, 0), default
zoom 15 from the header initializer, view range initialized from the default
zoom via zoomToRangeScale, empty selection, empty track registry. -/
noncomputable def initState : MapState :=
  { m_center := { latitude := 34.0522, longitude := -118.2437, altitude := 0 }
    m_zoom := 15
    m_viewRangeM := zoomToRangeScale 15
    m_selectedTrackId := emptyId
    m_tracks := [] }

/-- MapWidget::setCenter: replaces the center and emits centerChanged. -/
noncomputable def setCenter (s : MapState) (pos : GeoPosition) : MapState × List Signal :=
  ({ s with m_center := pos }, [Signal.centerChanged pos])

/-- MapWidget::setCenterSilent: replaces the center without emitting. -/
noncomputable def setCenterSilent (s : MapState) (pos : GeoPosition) : MapState × List Signal :=
  ({ s with m_center := pos }, [])

/-- MapWidget::setZoom: clamps the zoom to [1, 20], recomputes the view range
via zoomToRangeScale, and emits zoomChanged with the clamped zoom. -/
noncomputable def setZoom (s : MapState) (zoom : ℝ) : MapState × List Signal :=
  ({ s with m_zoom := qBound 1 zoom 20, m_viewRangeM := zoomToRangeScale (qBound 1 zoom 20) },
   [Signal.zoomChanged (qBound 1 zoom 20)])

/-- MapWidget::setZoomSilent: same as setZoom but without the emission. -/
noncomputable def setZoomSilent (s : MapState) (zoom : ℝ) : MapState × List Signal :=
  ({ s with m_zoom := qBound 1 zoom 20, m_viewRangeM := zoomToRangeScale (qBound 1 zoom 20) },
   [])

/-- MapWidget::mapRadius: half the smaller widget dimension minus the fixed
20 pixel margin left for labels. -/
noncomputable def mapRadius (w h : ℝ) : ℝ := min w h / 2 - 20

/-- The pixels-per-meter scale, the expression mapRadius() / m_viewRangeM
that geoToScreen, screenToGeo, pan and drawDefendedArea each compute. -/
noncomputable def pixelsPerMeter (s : MapState) (w h : ℝ) : ℝ :=
  mapRadius w h / s.m_viewRangeM

/-- MapWidget::geoToScreen: project the position to local meters relative to
the center, scale by pixels per meter, negate the north component because
screen y grows downward, and offset by the widget center pixel. -/
noncomputable def geoToScreen (s : MapState) (w h : ℝ) (pos : GeoPosition) : ℝ × ℝ :=
  (w / 2 + (CoordinateUtils.geoToLocal pos s.m_center).1 * pixelsPerMeter s w h,
   h / 2 + -(CoordinateUtils.geoToLocal pos s.m_center).2 * pixelsPerMeter s w h)

/-- MapWidget::screenToGeo: divide the pixel offsets from the widget center
by the pixels-per-meter scale, negating y, and convert the local meters back
to a geographic position relative to the center. -/
noncomputable def screenToGeo (s : MapState) (w h : ℝ) (screen : ℝ × ℝ) : GeoPosition :=
  CoordinateUtils.localToGeo
    ((screen.1 - w / 2) / pixelsPerMeter s w h,
     -(screen.2 - h / 2) / pixelsPerMeter s w h) s.m_center

/-- MapWidget::pan: convert the pixel delta to meters using the same
pixels-per-meter scale as geoToScreen, convert the meter offset to a
latitude/longitude delta using the meters-per-degree factors at the current
center latitude, shift the center, and emit centerChanged. -/
noncomputable def pan (s : MapState) (w h dx dy : ℝ) : MapState × List Signal :=
  ({ s with m_center :=
      { latitude := s.m_center.latitude +
          (dy / pixelsPerMeter s w h) / CoordinateUtils.DEG_TO_M_LAT
        longitude := s.m_center.longitude +
          (-dx / pixelsPerMeter s w h) / CoordinateUtils.degToMeterLon s.m_center.latitude
        altitude := s.m_center.altitude } },
   [Signal.centerChanged
      { latitude := s.m_center.latitude +
          (dy / pixelsPerMeter s w h) / CoordinateUtils.DEG_TO_M_LAT
        longitude := s.m_center.longitude +
          (-dx / pixelsPerMeter s w h) / CoordinateUtils.degToMeterLon s.m_center.latitude
        altitude := s.m_center.altitude }])

/-- MapWidget::selectTrack: stores the id unconditionally and requests a
repaint; it emits no signal (the trackSelected signal is declared in the
header but never emitted anywhere in MapWidget.cpp). -/
noncomputable def selectTrack (s : MapState) (trackId : String) : MapState × List Signal :=
  ({ s with m_selectedTrackId := trackId }, [])

/-- MapWidget::addTrack: ignores its argument and only requests a repaint;
the state is completely unchanged and nothing is emitted. -/
noncomputable def addTrack (s : MapState) (trackId : String) : MapState × List Signal :=
  (s, [])

/-- MapWidget::updateTrack: ignores its argument and only requests a repaint;
the state is completely unchanged and nothing is emitted. -/
noncomputable def updateTrack (s : MapState) (trackId : String) : MapState × List Signal :=
  (s, [])

/-- MapWidget::removeTrack: removes the registry entry for the id and, when
the removed id equals the selected id, clears the selection. -/
noncomputable def removeTrack (s : MapState) (trackId : String) : MapState × List Signal :=
  ({ s with
      m_tracks := s.m_tracks.filter (fun kv => kv.1 != trackId)
      m_selectedTrackId :=
        if s.m_selectedTrackId = trackId then emptyId else s.m_selectedTrackId },
   [])

/-- MapWidget::clearTracks: empties the registry and clears the selection. -/
noncomputable def clearTracks (s : MapState) : MapState × List Signal :=
  ({ s with m_tracks := [], m_selectedTrackId := emptyId }, [])

/-- MapWidget::drawDefendedArea: the critical zone circle is drawn with pixel
radius 500 * scale, with scale = mapRadius() / m_viewRangeM. -/
noncomputable def criticalRadiusPx (s : MapState) (w h : ℝ) : ℝ :=
  500 * pixelsPerMeter s w h

/-- MapWidget::drawDefendedArea: the warning zone circle is drawn with pixel
radius 1500 * scale, with scale = mapRadius() / m_viewRangeM. -/
noncomputable def warningRadiusPx (s : MapState) (w h : ℝ) : ℝ :=
  1500 * pixelsPerMeter s w h

/-- The registry entries MapWidget::drawTracks iterates and draws: every
entry whose track is not in the Dropped lifecycle state (the loop skips
dropped tracks and draws each remaining one). -/
def drawnTracks (s : MapState) : List (String × Track) :=
  s.m_tracks.filter (fun kv => kv.2.state != TrackState.Dropped)

/-- The operations of the component itself: its public mutators and slots. -/
inductive Op where
  | opSetCenter (pos : GeoPosition)
  | opSetCenterSilent (pos : GeoPosition)
  | opSetZoom (zoom : ℝ)
  | opSetZoomSilent (zoom : ℝ)
  | opPan (w h dx dy : ℝ)
  | opSelectTrack (trackId : String)
  | opAddTrack (trackId : String)
  | opUpdateTrack (trackId : String)
  | opRemoveTrack (trackId : String)
  | opClearTracks

/-- State transition of a single component operation. -/
noncomputable def applyOp (s : MapState) : Op → MapState
  | Op.opSetCenter pos => (setCenter s pos).1
  | Op.opSetCenterSilent pos => (setCenterSilent s pos).1
  | Op.opSetZoom zoom => (setZoom s zoom).1
  | Op.opSetZoomSilent zoom => (setZoomSilent s zoom).1
  | Op.opPan w h dx dy => (pan s w h dx dy).1
  | Op.opSelectTrack trackId => (selectTrack s trackId).1
  | Op.opAddTrack trackId => (addTrack s trackId).1
  | Op.opUpdateTrack trackId => (updateTrack s trackId).1
  | Op.opRemoveTrack trackId => (removeTrack s trackId).1
  | Op.opClearTracks => (clearTracks s).1

/-- State after a sequence of component operations. -/
noncomputable def applyOps (s : MapState) (ops : List Op) : MapState :=
  ops.foldl applyOp s

/-- The zoom/range coupling invariant: the stored view range equals
zoomToRangeScale of the stored zoom. -/
def rangeInvariant (s : MapState) : Prop :=
  s.m_viewRangeM = zoomToRangeScale s.m_zoom

/-- Concrete track id used in witness states. -/
def idA : String := "a"

/-- Concrete track id used in witness states. -/
def idB : String := "b"

/-- Concrete track id used in witness states. -/
def idT1 : String := "T1"

/-- Concrete track handle used in witness states. -/
def trackA : Track :=
  { position := { latitude := 0, longitude := 0, altitude := 0 }
    heading := 0
    speed := 0
    classification := TrackClassification.Unknown
    state := TrackState.Active
    trackId := idA }

/-- Concrete track handle used in witness states. -/
def trackB : Track :=
  { position := { latitude := 0, longitude := 0, altitude := 0 }
    heading := 0
    speed := 0
    classification := TrackClassification.Hostile
    state := TrackState.Active
    trackId := idB }

/-- Concrete registry state holding two tracks, used in witness statements. -/
noncomputable def sC8 : MapState :=
  { m_center := { latitude := 0, longitude := 0, altitude := 0 }
    m_zoom := 15
    m_viewRangeM := 5000
    m_selectedTrackId := emptyId
    m_tracks := [(idA, trackA), (idB, trackB)] }

/-- Concrete view state centered at latitude 60, view range 5000 m, used in
witness and counterexample statements. -/
noncomputable def stateLat60 : MapState :=
  { m_center := { latitude := 60, longitude := 0, altitude := 0 }
    m_zoom := 15
    m_viewRangeM := 5000
    m_selectedTrackId := emptyId
    m_tracks := [] }

/-- Concrete geographic position used in witness statements. -/
def pC1 : GeoPosition := { latitude := 10, longitude := 20, altitude := 0 }

theorem deg_to_m_lat_pos : (0 : ℝ) < CoordinateUtils.DEG_TO_M_LAT := by
  norm_num [CoordinateUtils.DEG_TO_M_LAT]

theorem deg_to_m_lat_ne : CoordinateUtils.DEG_TO_M_LAT ≠ 0 :=
  ne_of_gt deg_to_m_lat_pos

theorem degToMeterLon_pos (lat : ℝ) : 0 < CoordinateUtils.degToMeterLon lat := by
  have h : (0 : ℝ) < max (Real.cos (lat * Real.pi / 180)) (1 / 1000000) :=
    lt_max_of_lt_right (by norm_num)
  have h2 := mul_pos deg_to_m_lat_pos h
  simpa [CoordinateUtils.degToMeterLon] using h2

theorem degToMeterLon_ne (lat : ℝ) : CoordinateUtils.degToMeterLon lat ≠ 0 :=
  ne_of_gt (degToMeterLon_pos lat)

theorem mapRadius_pos {w h : ℝ} (hw : 400 ≤ w) (hh : 300 ≤ h) : 0 < mapRadius w h := by
  have h1 : (300 : ℝ) ≤ min w h := le_min (by linarith) hh
  unfold mapRadius
  linarith

theorem qBound_eq_self {lo v hi : ℝ} (h1 : lo ≤ v) (h2 : v ≤ hi) : qBound lo v hi = v := by
  unfold qBound
  rw [min_eq_left h2, max_eq_right h1]

theorem qBound_eq_lo {lo v hi : ℝ} (h1 : v ≤ lo) (h2 : lo ≤ hi) : qBound lo v hi = lo := by
  unfold qBound
  rcases le_total v hi with h | h
  · rw [min_eq_left h, max_eq_left h1]
  · rw [min_eq_right h, max_eq_left (le_trans h h1)]

theorem qBound_eq_hi {lo v hi : ℝ} (h1 : hi ≤ v) (h2 : lo ≤ hi) : qBound lo v hi = hi := by
  unfold qBound
  rw [min_eq_right h1, max_eq_right h2]

theorem applyOp_tracks_sublist (s : MapState) (op : Op) :
    ((applyOp s op).m_tracks).Sublist s.m_tracks := by
  cases op <;>
    first
      | exact List.filter_sublist _
      | exact List.nil_sublist _
      | exact List.Sublist.refl _

theorem applyOps_tracks_nil (ops : List Op) :
    ∀ s : MapState, s.m_tracks = [] → (applyOps s ops).m_tracks = [] := by
  induction ops with
  | nil => exact fun s hs => hs
  | cons op rest ih =>
    intro s hs
    apply ih
    have h := applyOp_tracks_sublist s op
    rw [hs] at h
    exact List.sublist_nil.mp h

theorem lookup_filter_self (l : List (String × Track)) (id : String) :
    (l.filter (fun kv => kv.1 != id)).lookup id = none := by
  rw [List.lookup_eq_none_iff]
  intro p hp
  have hm := (List.mem_filter.mp hp).2
  simp only [bne_iff_ne] at hm ⊢
  exact Ne.symm hm

theorem lookup_filter_other (l : List (String × Track)) (id k : String) (hk : k ≠ id) :
    (l.filter (fun kv => kv.1 != id)).lookup k = l.lookup k := by
  induction l with
  | nil => rfl
  | cons a t ih =>
    obtain ⟨ak, av⟩ := a
    by_cases h : ak = id
    · have hfb : (ak != id) = false := by simp [h]
      have hlb : (k == ak) = false := beq_false_of_ne fun hc => hk (h ▸ hc)
      simp only [List.filter_cons, hfb, Bool.false_eq_true, if_false, List.lookup_cons, hlb]
      exact ih
    · have hfb : (ak != id) = true := by simp [h]
      simp only [List.filter_cons, hfb, if_true, List.lookup_cons]
      cases hke : k == ak with
      | true => rfl
      | false => exact ih

theorem two_rpow_pos (x : ℝ) : 0 < (2 : ℝ) ^ x :=
  Real.rpow_pos_of_pos (by norm_num) x

theorem two_rpow_38_5_pow : ((2 : ℝ) ^ ((38 : ℝ) / 5)) ^ (5 : ℕ) = 274877906944 := by
  rw [← Real.rpow_natCast ((2 : ℝ) ^ ((38 : ℝ) / 5)) 5,
    ← Real.rpow_mul (by norm_num : (0 : ℝ) ≤ 2)]
  rw [show (38 : ℝ) / 5 * ((5 : ℕ) : ℝ) = ((38 : ℕ) : ℝ) by push_cast; ring]
  rw [Real.rpow_natCast]
  norm_num

theorem two_rpow_38_5_lt : (2 : ℝ) ^ ((38 : ℝ) / 5) < 195 := by
  apply lt_of_pow_lt_pow_left 5 (by norm_num : (0 : ℝ) ≤ 195)
  rw [two_rpow_38_5_pow]
  norm_num

theorem two_rpow_38_5_gt : (194 : ℝ) < (2 : ℝ) ^ ((38 : ℝ) / 5) := by
  apply lt_of_pow_lt_pow_left 5 (le_of_lt (two_rpow_pos _))
  rw [two_rpow_38_5_pow]
  norm_num

theorem two_rpow_46_5_ge : (500 : ℝ) ≤ (2 : ℝ) ^ ((46 : ℝ) / 5) := by
  have h9 : (2 : ℝ) ^ (((9 : ℕ)) : ℝ) = 512 := by
    rw [Real.rpow_natCast]
    norm_num
  have hle : (2 : ℝ) ^ (((9 : ℕ)) : ℝ) ≤ (2 : ℝ) ^ ((46 : ℝ) / 5) := by
    apply (Real.rpow_le_rpow_left_iff (by norm_num : (1 : ℝ) < 2)).mpr
    push_cast
    norm_num
  linarith

theorem zoomToRangeScale_unclamped {z : ℝ} (h1 : 1 ≤ z) (h2 : z ≤ 20) :
    zoomToRangeScale z = 50000 / (2 : ℝ) ^ ((z - 1) / 2.5) := by
  have hpos : (0 : ℝ) < (2 : ℝ) ^ ((z - 1) / 2.5) := two_rpow_pos _
  have hge1 : (1 : ℝ) ≤ (2 : ℝ) ^ ((z - 1) / 2.5) := by
    have h0 : (0 : ℝ) ≤ (z - 1) / 2.5 := div_nonneg (by linarith) (by norm_num)
    calc (1 : ℝ) = (2 : ℝ) ^ (0 : ℝ) := (Real.rpow_zero 2).symm
      _ ≤ (2 : ℝ) ^ ((z - 1) / 2.5) := (Real.rpow_le_rpow_left_iff (by norm_num)).mpr h0
  have hle : (2 : ℝ) ^ ((z - 1) / 2.5) ≤ (2 : ℝ) ^ ((38 : ℝ) / 5) := by
    apply (Real.rpow_le_rpow_left_iff (by norm_num : (1 : ℝ) < 2)).mpr
    rw [div_le_div_iff (by norm_num) (by norm_num)]
    linarith
  have hle195 : (2 : ℝ) ^ ((z - 1) / 2.5) ≤ 195 := le_trans hle (le_of_lt two_rpow_38_5_lt)
  unfold zoomToRangeScale
  apply qBound_eq_self
  · rw [le_div_iff hpos]
    nlinarith
  · rw [div_le_iff hpos]
    nlinarith

/-- C2: the range invariant m_viewRangeM = zoomToRangeScale m_zoom holds after
construction and is reestablished by setZoom and setZoomSilent and preserved
by setCenter, setCenterSilent and pan, so the zoom and range representations
never drift apart. -/
theorem C2_range_invariant :
    rangeInvariant initState ∧
    (∀ (s : MapState) (z : ℝ), rangeInvariant (setZoom s z).1) ∧
    (∀ (s : MapState) (z : ℝ), rangeInvariant (setZoomSilent s z).1) ∧
    (∀ (s : MapState) (p : GeoPosition), rangeInvariant s → rangeInvariant (setCenter s p).1) ∧
    (∀ (s : MapState) (p : GeoPosition),
      rangeInvariant s → rangeInvariant (setCenterSilent s p).1) ∧
    (∀ (s : MapState) (w h dx dy : ℝ), rangeInvariant s → rangeInvariant (pan s w h dx dy).1) :=
  ⟨rfl, fun _ _ => rfl, fun _ _ => rfl, fun _ _ h => h, fun _ _ h => h,
   fun _ _ _ _ _ h => h⟩

/-- C2 witness: the invariant facts at concrete inputs. -/
theorem C2_range_invariant_witness :
    rangeInvariant (setCenterSilent initState { latitude := 0, longitude := 0, altitude := 0 }).1 ∧
    rangeInvariant (pan initState 400 300 5 5).1 :=
  ⟨C2_range_invariant.2.2.2.2.1 initState { latitude := 0, longitude := 0, altitude := 0 } rfl,
   C2_range_invariant.2.2.2.2.2 initState 400 300 5 5 rfl⟩

/-- C6 amended: selectTrack stores the id unconditionally, even when no
registry entry carries that id, leaves every other state component unchanged,
and emits no signal at all: the trackSelected signal is declared in the
header but never emitted by selectTrack or any other MapWidget member. -/
theorem C6_selectTrack_amended (s : MapState) (trackId : String) :
    (selectTrack s trackId).1.m_selectedTrackId = trackId ∧
    (selectTrack s trackId).1.m_center = s.m_center ∧
    (selectTrack s trackId).1.m_zoom = s.m_zoom ∧
    (selectTrack s trackId).1.m_viewRangeM = s.m_viewRangeM ∧
    (selectTrack s trackId).1.m_tracks = s.m_tracks ∧
    (selectTrack s trackId).2 = [] :=
  ⟨rfl, rfl, rfl, rfl, rfl, rfl⟩

/-- C6 counterexample: selecting id T1 on the constructed state stores the id
but produces an empty emission list, so in particular the track-selected
notification asserted by the claim is not fired. -/
theorem C6_counterexample :
    (selectTrack initState idT1).1.m_selectedTrackId = idT1 ∧
    Signal.trackSelected idT1 ∉ (selectTrack initState idT1).2 :=
  ⟨rfl, by simp [selectTrack]⟩

/-- C8: removeTrack deletes the registry entry for the id (afterwards the
lookup of that id yields none while every other lookup is unchanged) and the
selection is cleared exactly when the removed id equals the previously
selected id, otherwise left unchanged. -/
theorem C8_removeTrack (s : MapState) (trackId : String) :
    ((removeTrack s trackId).1.m_tracks).lookup trackId = none ∧
    (∀ k : String, k ≠ trackId →
      ((removeTrack s trackId).1.m_tracks).lookup k = s.m_tracks.lookup k) ∧
    (removeTrack s trackId).1.m_selectedTrackId =
      (if s.m_selectedTrackId = trackId then emptyId else s.m_selectedTrackId) :=
  ⟨lookup_filter_self s.m_tracks trackId,
   fun k hk => lookup_filter_other s.m_tracks trackId k hk, rfl⟩

/-- C8 witness: removing id a from a two-track registry deletes the entry for
a and leaves the lookup of id b unchanged. -/
theorem C8_removeTrack_witness :
    ((removeTrack sC8 idA).1.m_tracks).lookup idA = none ∧
    ((removeTrack sC8 idA).1.m_tracks).lookup idB = sC8.m_tracks.lookup idB :=
  ⟨(C8_removeTrack sC8 idA).1, (C8_removeTrack sC8 idA).2.1 idB (by decide)⟩

/-- C9: both defended-area ring radii are the ring radius in meters times the
same pixels-per-meter scale that geoToScreen uses, and therefore the critical
ring pixel radius is exactly one third of the warning ring pixel radius for
every view state and widget size. -/
theorem C9_zone_rings (s : MapState) (w h : ℝ) :
    criticalRadiusPx s w h = 500 * pixelsPerMeter s w h ∧
    warningRadiusPx s w h = 1500 * pixelsPerMeter s w h ∧
    criticalRadiusPx s w h = warningRadiusPx s w h / 3 := by
  refine ⟨rfl, rfl, ?_⟩
  unfold criticalRadiusPx warningRadiusPx
  ring

/-- C10: addTrack and updateTrack leave the entire state unchanged and emit
nothing (they only request a repaint), every component operation leaves the
track registry a sublist of what it was, and along any sequence of component
operations starting from the constructed state the registry stays empty, so
drawTracks iterates an empty collection. -/
theorem C10_tracks_never_grow :
    (∀ (s : MapState) (trackId : String),
        addTrack s trackId = (s, []) ∧ updateTrack s trackId = (s, [])) ∧
    (∀ (s : MapState) (op : Op), ((applyOp s op).m_tracks).Sublist s.m_tracks) ∧
    (∀ ops : List Op,
        (applyOps initState ops).m_tracks = [] ∧ drawnTracks (applyOps initState ops) = []) := by
  refine ⟨fun s trackId => ⟨rfl, rfl⟩, applyOp_tracks_sublist, fun ops => ?_⟩
  have h := applyOps_tracks_nil ops initState rfl
  exact ⟨h, by simp [drawnTracks, h]⟩

/-- C4 amended: for every zoom z in [1, 20], rangeScaleToZoom inverts
zoomToRangeScale exactly, and for every range in the image of [1, 20] under
zoomToRangeScale (rather than the whole image of zoomToRangeScale over all
reals) the opposite composition is also the identity. -/
theorem C4_zoom_range_roundtrip :
    (∀ z : ℝ, 1 ≤ z → z ≤ 20 → rangeScaleToZoom (zoomToRangeScale z) = z) ∧
    (∀ z : ℝ, 1 ≤ z → z ≤ 20 →
      zoomToRangeScale (rangeScaleToZoom (zoomToRangeScale z)) = zoomToRangeScale z) := by
  have key : ∀ z : ℝ, 1 ≤ z → z ≤ 20 → rangeScaleToZoom (zoomToRangeScale z) = z := by
    intro z h1 h2
    rw [zoomToRangeScale_unclamped h1 h2]
    unfold rangeScaleToZoom
    have hpos : (0 : ℝ) < (2 : ℝ) ^ ((z - 1) / 2.5) := two_rpow_pos _
    have hsimp : (50000 : ℝ) / (50000 / (2 : ℝ) ^ ((z - 1) / 2.5)) =
        (2 : ℝ) ^ ((z - 1) / 2.5) := by
      field_simp
    rw [hsimp, Real.logb_rpow (by norm_num) (by norm_num)]
    have harith : 1 + (z - 1) / 2.5 * 2.5 = z := by
      field_simp
    rw [harith]
    exact qBound_eq_self h1 h2
  exact ⟨key, fun z h1 h2 => by rw [key z h1 h2]⟩

/-- C4 witness: the round trips at the concrete zoom 3. -/
theorem C4_zoom_range_roundtrip_witness :
    rangeScaleToZoom (zoomToRangeScale 3) = 3 ∧
    zoomToRangeScale (rangeScaleToZoom (zoomToRangeScale 3)) = zoomToRangeScale 3 :=
  ⟨C4_zoom_range_roundtrip.1 3 (by norm_num) (by norm_num),
   C4_zoom_range_roundtrip.2 3 (by norm_num) (by norm_num)⟩

/-- C4 counterexample: the range 100 lies in the image of zoomToRangeScale,
since at zoom 24 the formula saturates at the 100 m floor, but mapping 100
through rangeScaleToZoom (which clamps the zoom to 20) and back through
zoomToRangeScale produces a range above 250 m, missing the claimed round trip
by far more than any floating point tolerance. -/
theorem C4_counterexample :
    zoomToRangeScale 24 = 100 ∧
    zoomToRangeScale (rangeScaleToZoom (zoomToRangeScale 24)) - zoomToRangeScale 24 >
      1 / 1000000 := by
  have h24 : zoomToRangeScale 24 = 100 := by
    unfold zoomToRangeScale
    have he : ((24 : ℝ) - 1) / 2.5 = (46 : ℝ) / 5 := by norm_num
    rw [he]
    have hpos : (0 : ℝ) < (2 : ℝ) ^ ((46 : ℝ) / 5) := two_rpow_pos _
    have h500 := two_rpow_46_5_ge
    have hub : (50000 : ℝ) / (2 : ℝ) ^ ((46 : ℝ) / 5) ≤ 100 := by
      rw [div_le_iff hpos]
      nlinarith
    exact qBound_eq_lo hub (by norm_num)
  have hz : rangeScaleToZoom 100 = 20 := by
    unfold rangeScaleToZoom
    have hlogb : (7.6 : ℝ) ≤ Real.logb 2 (50000 / 100) := by
      rw [show (50000 : ℝ) / 100 = 500 by norm_num]
      rw [Real.le_logb_iff_rpow_le (by norm_num) (by norm_num)]
      calc (2 : ℝ) ^ (7.6 : ℝ) = (2 : ℝ) ^ ((38 : ℝ) / 5) := by
            rw [show (7.6 : ℝ) = (38 : ℝ) / 5 by norm_num]
        _ ≤ 500 := by linarith [two_rpow_38_5_lt]
    apply qBound_eq_hi
    · nlinarith
    · norm_num
  refine ⟨h24, ?_⟩
  have h20 : zoomToRangeScale 20 = 50000 / (2 : ℝ) ^ (((20 : ℝ) - 1) / 2.5) :=
    zoomToRangeScale_unclamped (by norm_num) (by norm_num)
  have he : ((20 : ℝ) - 1) / 2.5 = (38 : ℝ) / 5 := by norm_num
  rw [h24, hz, h20, he]
  have hpos : (0 : ℝ) < (2 : ℝ) ^ ((38 : ℝ) / 5) := two_rpow_pos _
  have hlt := two_rpow_38_5_lt
  have hgt : (250 : ℝ) < 50000 / (2 : ℝ) ^ ((38 : ℝ) / 5) := by
    rw [lt_div_iff hpos]
    nlinarith
  linarith

/-- C5 amended: zoomToRangeScale equals the clamped exponential formula for
every real zoom, is strictly decreasing over [1, 20], always lands in
[100, 50000], equals exactly 50000 m at zoom 1, and at zoom 20 equals about
257.7 m (strictly between 256 and 258), not approximately 100 m. -/
theorem C5_zoomToRangeScale_props :
    (∀ z : ℝ, zoomToRangeScale z = max 100 (min (50000 / (2 : ℝ) ^ ((z - 1) / 2.5)) 50000)) ∧
    (∀ a b : ℝ, 1 ≤ a → a < b → b ≤ 20 → zoomToRangeScale b < zoomToRangeScale a) ∧
    (∀ z : ℝ, 100 ≤ zoomToRangeScale z ∧ zoomToRangeScale z ≤ 50000) ∧
    zoomToRangeScale 1 = 50000 ∧
    256 < zoomToRangeScale 20 ∧ zoomToRangeScale 20 < 258 := by
  have h20 : zoomToRangeScale 20 = 50000 / (2 : ℝ) ^ (((20 : ℝ) - 1) / 2.5) :=
    zoomToRangeScale_unclamped (by norm_num) (by norm_num)
  have he : ((20 : ℝ) - 1) / 2.5 = (38 : ℝ) / 5 := by norm_num
  have hpos : (0 : ℝ) < (2 : ℝ) ^ ((38 : ℝ) / 5) := two_rpow_pos _
  refine ⟨fun z => rfl, ?_, ?_, ?_, ?_, ?_⟩
  · intro a b ha hab hb
    rw [zoomToRangeScale_unclamped ha (by linarith),
      zoomToRangeScale_unclamped (by linarith) hb]
    have hpa : (0 : ℝ) < (2 : ℝ) ^ ((a - 1) / 2.5) := two_rpow_pos _
    have hpb : (0 : ℝ) < (2 : ℝ) ^ ((b - 1) / 2.5) := two_rpow_pos _
    have hlt : (2 : ℝ) ^ ((a - 1) / 2.5) < (2 : ℝ) ^ ((b - 1) / 2.5) := by
      apply (Real.rpow_lt_rpow_left_iff (by norm_num : (1 : ℝ) < 2)).mpr
      rw [div_lt_div_iff (by norm_num) (by norm_num)]
      linarith
    rw [div_lt_div_iff hpb hpa]
    nlinarith
  · intro z
    exact ⟨le_max_left _ _, max_le (by norm_num) (min_le_right _ _)⟩
  · unfold zoomToRangeScale
    rw [show ((1 : ℝ) - 1) / 2.5 = 0 by norm_num, Real.rpow_zero, div_one]
    exact qBound_eq_self (by norm_num) (by norm_num)
  · rw [h20, he, lt_div_iff hpos]
    nlinarith [two_rpow_38_5_lt]
  · rw [h20, he, div_lt_iff hpos]
    nlinarith [two_rpow_38_5_gt]

/-- C5 witness: strict decrease and the lower range bound at concrete zooms. -/
theorem C5_zoomToRangeScale_witness :
    zoomToRangeScale 3 < zoomToRangeScale 2 ∧ 100 ≤ zoomToRangeScale 7 :=
  ⟨C5_zoomToRangeScale_props.2.1 2 3 (by norm_num) (by norm_num) (by norm_num),
   (C5_zoomToRangeScale_props.2.2.1 7).1⟩

/-- C5 counterexample: at zoom 20 the range exceeds 250 m, so it is not
approximately 100 m; the deviation from 100 m exceeds 150 m. -/
theorem C5_counterexample :
    250 < zoomToRangeScale 20 ∧ |zoomToRangeScale 20 - 100| > 150 := by
  have h20 : zoomToRangeScale 20 = 50000 / (2 : ℝ) ^ (((20 : ℝ) - 1) / 2.5) :=
    zoomToRangeScale_unclamped (by norm_num) (by norm_num)
  have he : ((20 : ℝ) - 1) / 2.5 = (38 : ℝ) / 5 := by norm_num
  rw [h20, he]
  have hpos : (0 : ℝ) < (2 : ℝ) ^ ((38 : ℝ) / 5) := two_rpow_pos _
  have hlt := two_rpow_38_5_lt
  have hgt : (250 : ℝ) < 50000 / (2 : ℝ) ^ ((38 : ℝ) / 5) := by
    rw [lt_div_iff hpos]
    nlinarith
  refine ⟨hgt, ?_⟩
  rw [abs_of_pos (by linarith)]
  linarith

theorem pan_geoToScreen_center (s : MapState) (w h dx dy : ℝ)
    (hscale : pixelsPerMeter s w h ≠ 0) :
    geoToScreen (pan s w h dx dy).1 w h s.m_center =
      (w / 2 + dx *
        (CoordinateUtils.degToMeterLon
            (s.m_center.latitude + dy / pixelsPerMeter s w h / CoordinateUtils.DEG_TO_M_LAT) /
          CoordinateUtils.degToMeterLon s.m_center.latitude),
       h / 2 + dy) := by
  have hL : CoordinateUtils.degToMeterLon s.m_center.latitude ≠ 0 := degToMeterLon_ne _
  have hD : CoordinateUtils.DEG_TO_M_LAT ≠ 0 := deg_to_m_lat_ne
  show
    (w / 2 +
      (s.m_center.longitude -
        (s.m_center.longitude +
          (-dx / pixelsPerMeter s w h) / CoordinateUtils.degToMeterLon s.m_center.latitude)) *
        CoordinateUtils.degToMeterLon
          (s.m_center.latitude + dy / pixelsPerMeter s w h / CoordinateUtils.DEG_TO_M_LAT) *
        pixelsPerMeter s w h,
     h / 2 +
      -((s.m_center.latitude -
          (s.m_center.latitude + dy / pixelsPerMeter s w h / CoordinateUtils.DEG_TO_M_LAT)) *
          CoordinateUtils.DEG_TO_M_LAT) *
        pixelsPerMeter s w h) = _
  refine Prod.ext ?_ ?_
  · show w / 2 + _ * _ * _ = w / 2 + _
    field_simp
    ring
  · show h / 2 + _ * _ = h / 2 + dy
    field_simp
    ring

/-- C3 amended: pan converts the pixel delta with the same pixels-per-meter
scale as geoToScreen, and after pan(d) the geographic point that previously
projected to the widget center projects to the widget center shifted
vertically by exactly d.y; its horizontal position is the widget center
shifted by exactly d.x whenever d.y = 0 (a purely horizontal drag), while for
d.y different from zero the horizontal shift is d.x scaled by the ratio of
the longitude meter factors at the new and old center latitudes, which in
general differs from d.x. -/
theorem C3_pan_shift_amended (s : MapState) (w h dx dy : ℝ)
    (hr : mapRadius w h ≠ 0) (hv : s.m_viewRangeM ≠ 0) :
    (geoToScreen (pan s w h dx dy).1 w h s.m_center).2 = h / 2 + dy ∧
    (dy = 0 → (geoToScreen (pan s w h dx dy).1 w h s.m_center).1 = w / 2 + dx) := by
  have hscale : pixelsPerMeter s w h ≠ 0 := div_ne_zero hr hv
  have hmain := pan_geoToScreen_center s w h dx dy hscale
  constructor
  · rw [hmain]
  · intro h0
    subst h0
    rw [hmain]
    simp [div_self (degToMeterLon_ne s.m_center.latitude)]

/-- C3 witness: a purely horizontal drag of 7 pixels at the latitude-60 state
moves the old center point exactly 7 pixels right and 0 pixels down. -/
theorem C3_pan_shift_witness :
    (geoToScreen (pan stateLat60 400 300 7 0).1 400 300 stateLat60.m_center).2 = 300 / 2 + 0 ∧
    (geoToScreen (pan stateLat60 400 300 7 0).1 400 300 stateLat60.m_center).1 = 400 / 2 + 7 := by
  have hmr : mapRadius 400 300 ≠ 0 := by
    unfold mapRadius
    rw [min_eq_right (by norm_num : (300 : ℝ) ≤ 400)]
    norm_num
  have hv : stateLat60.m_viewRangeM ≠ 0 := by norm_num [stateLat60]
  have hth := C3_pan_shift_amended stateLat60 400 300 7 0 hmr hv
  exact ⟨hth.1, hth.2 rfl⟩

/-- C3 counterexample: at the latitude-60 state with a 400 by 300 widget and
view range 5000 m, the old center projects to the widget center, but after
pan by the pixel delta (130, 130) the old center does not project to the
widget center plus (130, 130): the latitude change shrinks the longitude
meter factor, so the horizontal coordinate falls strictly short of the
claimed value. -/
theorem C3_counterexample :
    geoToScreen stateLat60 400 300 stateLat60.m_center = (400 / 2, 300 / 2) ∧
    (geoToScreen (pan stateLat60 400 300 130 130).1 400 300 stateLat60.m_center).1 ≠
      400 / 2 + 130 := by
  have hp : pixelsPerMeter stateLat60 400 300 = 13 / 500 := by
    unfold pixelsPerMeter mapRadius stateLat60
    rw [min_eq_right (by norm_num : (300 : ℝ) ≤ 400)]
    norm_num
  constructor
  · simp [geoToScreen, CoordinateUtils.geoToLocal]
  · have hscale : pixelsPerMeter stateLat60 400 300 ≠ 0 := by
      rw [hp]
      norm_num
    have hmain := pan_geoToScreen_center stateLat60 400 300 130 130 hscale
    rw [hmain]
    have hc : stateLat60.m_center.latitude = 60 := rfl
    rw [hc]
    have harg : (60 : ℝ) + 130 / pixelsPerMeter stateLat60 400 300 /
        CoordinateUtils.DEG_TO_M_LAT = 167105 / 2783 := by
      rw [hp]
      unfold CoordinateUtils.DEG_TO_M_LAT
      norm_num
    rw [harg]
    have hcos60 : Real.cos ((60 : ℝ) * Real.pi / 180) = 1 / 2 := by
      rw [show (60 : ℝ) * Real.pi / 180 = Real.pi / 3 by ring]
      exact Real.cos_pi_div_three
    have hL60 : CoordinateUtils.degToMeterLon 60 = 55660 := by
      unfold CoordinateUtils.degToMeterLon CoordinateUtils.DEG_TO_M_LAT
      rw [hcos60, max_eq_left (by norm_num : (1 : ℝ) / 1000000 ≤ 1 / 2)]
      norm_num
    rw [hL60]
    have hpi := Real.pi_pos
    have h1 : Real.pi / 3 < (167105 / 2783 : ℝ) * Real.pi / 180 := by nlinarith
    have h2 : (167105 / 2783 : ℝ) * Real.pi / 180 ≤ Real.pi := by nlinarith
    have h3 : (0 : ℝ) ≤ Real.pi / 3 := by linarith
    have hcoslt : Real.cos ((167105 / 2783 : ℝ) * Real.pi / 180) <
        Real.cos (Real.pi / 3) :=
      Real.cos_lt_cos_of_nonneg_of_le_pi h3 h2 h1
    rw [Real.cos_pi_div_three] at hcoslt
    have hLnew : CoordinateUtils.degToMeterLon (167105 / 2783) < 55660 := by
      unfold CoordinateUtils.degToMeterLon CoordinateUtils.DEG_TO_M_LAT
      have hmax : max (Real.cos ((167105 / 2783 : ℝ) * Real.pi / 180)) (1 / 1000000) <
          1 / 2 :=
        max_lt hcoslt (by norm_num)
      nlinarith
    apply ne_of_lt
    have hdiv : CoordinateUtils.degToMeterLon (167105 / 2783) / 55660 < 1 :=
      (div_lt_one (by norm_num)).mpr hLnew
    linarith

/-- C1: composing geoToScreen then screenToGeo returns the original latitude
and longitude exactly, for every position with latitude in [-90, 90] and
longitude in [-180, 180], every view state whose range lies in the reachable
interval [100, 50000], and every widget size at or above the enforced
400 by 300 minimum. -/
theorem C1_screenToGeo_geoToScreen_roundtrip (s : MapState) (w h : ℝ) (p : GeoPosition)
    (hw : 400 ≤ w) (hh : 300 ≤ h)
    (hlo : 100 ≤ s.m_viewRangeM) (hhi : s.m_viewRangeM ≤ 50000)
    (hlat1 : -90 ≤ p.latitude) (hlat2 : p.latitude ≤ 90)
    (hlon1 : -180 ≤ p.longitude) (hlon2 : p.longitude ≤ 180) :
    (screenToGeo s w h (geoToScreen s w h p)).latitude = p.latitude ∧
    (screenToGeo s w h (geoToScreen s w h p)).longitude = p.longitude := by
  have hr : 0 < mapRadius w h := mapRadius_pos hw hh
  have hv : (0 : ℝ) < s.m_viewRangeM := by linarith
  have hscale : pixelsPerMeter s w h ≠ 0 := div_ne_zero (ne_of_gt hr) (ne_of_gt hv)
  have hL : CoordinateUtils.degToMeterLon s.m_center.latitude ≠ 0 := degToMeterLon_ne _
  have hD : CoordinateUtils.DEG_TO_M_LAT ≠ 0 := deg_to_m_lat_ne
  constructor
  · show s.m_center.latitude +
        -((h / 2 + -((p.latitude - s.m_center.latitude) * CoordinateUtils.DEG_TO_M_LAT) *
            pixelsPerMeter s w h) - h / 2) / pixelsPerMeter s w h /
          CoordinateUtils.DEG_TO_M_LAT = p.latitude
    field_simp
  · show s.m_center.longitude +
        ((w / 2 + (p.longitude - s.m_center.longitude) *
            CoordinateUtils.degToMeterLon s.m_center.latitude * pixelsPerMeter s w h) - w / 2) /
          pixelsPerMeter s w h / CoordinateUtils.degToMeterLon s.m_center.latitude =
        p.longitude
    field_simp

/-- C1 witness: the round trip at a concrete state, widget size and point. -/
theorem C1_roundtrip_witness :
    (screenToGeo stateLat60 400 300 (geoToScreen stateLat60 400 300 pC1)).latitude =
      pC1.latitude ∧
    (screenToGeo stateLat60 400 300 (geoToScreen stateLat60 400 300 pC1)).longitude =
      pC1.longitude :=
  C1_screenToGeo_geoToScreen_roundtrip stateLat60 400 300 pC1 (by norm_num) (by norm_num)
    (by norm_num [stateLat60]) (by norm_num [stateLat60]) (by norm_num [pC1])
    (by norm_num [pC1]) (by norm_num [pC1]) (by norm_num [pC1])

/-- C7: with a 400 by 300 widget the view radius is min(400,300)/2 - 20 = 130
pixels; at view range 5000 m a track 1000 m due east of the center projects
to x = 400/2 + 130*(1000/5000) = 400/2 + 26 at the vertical center, and a
track exactly at the center projects to the geometric widget center. -/
theorem C7_concrete_projection (c : GeoPosition) (z : ℝ) :
    mapRadius 400 300 = 130 ∧
    geoToScreen
      { m_center := c, m_zoom := z, m_viewRangeM := 5000,
        m_selectedTrackId := emptyId, m_tracks := [] } 400 300
      (CoordinateUtils.localToGeo (1000, 0) c) = (400 / 2 + 26, 300 / 2) ∧
    geoToScreen
      { m_center := c, m_zoom := z, m_viewRangeM := 5000,
        m_selectedTrackId := emptyId, m_tracks := [] } 400 300 c = (400 / 2, 300 / 2) := by
  have hm : mapRadius 400 300 = 130 := by
    unfold mapRadius
    rw [min_eq_right (by norm_num : (300 : ℝ) ≤ 400)]
    norm_num
  have hL : CoordinateUtils.degToMeterLon c.latitude ≠ 0 := degToMeterLon_ne _
  have hD : CoordinateUtils.DEG_TO_M_LAT ≠ 0 := deg_to_m_lat_ne
  refine ⟨hm, ?_, ?_⟩
  · refine Prod.ext ?_ ?_
    · show (400 : ℝ) / 2 +
          ((c.longitude + 1000 / CoordinateUtils.degToMeterLon c.latitude - c.longitude) *
            CoordinateUtils.degToMeterLon c.latitude) *
            (mapRadius 400 300 / 5000) = 400 / 2 + 26
      rw [hm]
      field_simp
      ring
    · show (300 : ℝ) / 2 +
          -((c.latitude + 0 / CoordinateUtils.DEG_TO_M_LAT - c.latitude) *
            CoordinateUtils.DEG_TO_M_LAT) * (mapRadius 400 300 / 5000) = 300 / 2
      rw [hm]
      field_simp
  · refine Prod.ext ?_ ?_
    · show (400 : ℝ) / 2 +
          ((c.longitude - c.longitude) * CoordinateUtils.degToMeterLon c.latitude) *
            (mapRadius 400 300 / 5000) = 400 / 2
      field_simp
    · show (300 : ℝ) / 2 +
          -((c.latitude - c.latitude) * CoordinateUtils.DEG_TO_M_LAT) *
            (mapRadius 400 300 / 5000) = 300 / 2
      field_simp

end CounterUAS
